import Mathlib

/-!
Verification of the bus-client and change-capture cursor service of the
`full-agentic-stack` repository, as a shallow embedding in Lean 4.

Embedded components:
* `Retry`   — `RabbitMQEventBus.handleWithRetry` and the consume callback
              installed by `RabbitMQEventBus.subscribe`
              (src/event-bus/src/rabbitmq-event-bus.ts).
* `Connect` — the `connect()` retry loop shared verbatim by
              `RabbitMQEventBus.connect` and `RabbitMQCommandBus.connect`.
* `Pub`     — `publish` / `publishBatch` of both buses.
* `CDC`     — the `ChangeDataCapture` poll cycle
              (`checkForChanges` / `processClienteChanges` and its two
              structurally identical siblings) over the `audit.event_log`
              and `audit.cdc_position` tables.
* `DLQ`     — `RabbitMQEventBus.getDLQMessages` over a model of an AMQP
              channel with manual acknowledgement.
* `Sub`     — `subscribe` / `unsubscribe` handler-registry state.
-/

namespace Retry

/-- Configuration slice of `RabbitMQConfig` used by the retry logic.
The constructor defaults (`config.maxRetries || 3`,
`config.retryDelayMs || 5000`) are modelled by `mkRetryConfig`. -/
structure RetryConfig where
  maxRetries : Nat
  retryDelayMs : Nat
deriving Repr, DecidableEq

/-- JavaScript `x || d` for an optional numeric config field: `0`,
like an absent field, falls back to the default. -/
def orDefault (o : Option Nat) (d : Nat) : Nat :=
  match o with
  | some n => if n == 0 then d else n
  | none => d

/-- The `RabbitMQEventBus` constructor's config normalisation:
`maxRetries: config.maxRetries || 3`, `retryDelayMs: config.retryDelayMs || 5000`. -/
def mkRetryConfig (maxRetries retryDelayMs : Option Nat) : RetryConfig :=
  { maxRetries := orDefault maxRetries 3
    retryDelayMs := orDefault retryDelayMs 5000 }

/-- Observable actions of the consume callback: handler invocation
(with its 1-based attempt number), a `setTimeout` wait, `channel.ack`,
and `channel.nack` carrying its `requeue` flag. -/
inductive DOp where
  | invoke (attempt : Nat)
  | wait (ms : Nat)
  | ack
  | nack (requeue : Bool)
deriving Repr, DecidableEq

/-- `handleWithRetry`, recursion made structural on the number of retries
still allowed: at attempt `a` the code retries iff `a < maxRetries`, so
`remaining = maxRetries - a` and the guard holds iff `remaining > 0`.
`succeeds a` tells whether `handler.handle` resolves on attempt `a`.
Returns the trace of actions and whether the call resolved (true) or
re-threw the handler error (false). -/
def retryGo (cfg : RetryConfig) (succeeds : Nat → Bool) :
    Nat → Nat → List DOp × Bool
  | attempt, 0 =>
    if succeeds attempt then ([DOp.invoke attempt], true)
    else ([DOp.invoke attempt], false)
  | attempt, remaining + 1 =>
    if succeeds attempt then ([DOp.invoke attempt], true)
    else
      let delayMs := cfg.retryDelayMs * 2 ^ (attempt - 1)
      let rest := retryGo cfg succeeds (attempt + 1) remaining
      (DOp.invoke attempt :: DOp.wait delayMs :: rest.1, rest.2)

/-- `handleWithRetry(handler, event)` starts at `attempt = 1`. -/
def handleWithRetry (cfg : RetryConfig) (succeeds : Nat → Bool) :
    List DOp × Bool :=
  retryGo cfg succeeds 1 (cfg.maxRetries - 1)

/-- The consume callback of `subscribe` for one delivered message:
parse the body (`parseOk`), run `handleWithRetry`, then `ack` on success;
any error (parse failure or exhausted retries) reaches the catch block,
which calls `nack(msg, false, false)` — no requeue, so the broker routes
the message to the dead-letter exchange. -/
def consume (cfg : RetryConfig) (parseOk : Bool) (succeeds : Nat → Bool) :
    List DOp :=
  if parseOk then
    let r := handleWithRetry cfg succeeds
    if r.2 then r.1 ++ [DOp.ack] else r.1 ++ [DOp.nack false]
  else [DOp.nack false]

/-- Number of handler invocations in a trace. -/
def invokeCount (t : List DOp) : Nat :=
  (t.filter fun o => match o with | DOp.invoke _ => true | _ => false).length

/-- Number of `ack` actions in a trace. -/
def ackCount (t : List DOp) : Nat :=
  (t.filter fun o => match o with | DOp.ack => true | _ => false).length

/-- Number of `nack` actions in a trace (any requeue flag). -/
def nackCount (t : List DOp) : Nat :=
  (t.filter fun o => match o with | DOp.nack _ => true | _ => false).length

/-- The waits of a trace, in order. -/
def waits (t : List DOp) : List Nat :=
  t.filterMap fun o => match o with | DOp.wait ms => some ms | _ => none

end Retry

namespace Connect

/-- Observable actions of the `connect()` loop: a connection attempt
(1-based number) and a backoff sleep. -/
inductive COp where
  | attempt (n : Nat)
  | sleep (ms : Nat)
deriving Repr, DecidableEq

/-- The `while (retries < maxRetries)` loop of `connect()`, shared by
`RabbitMQEventBus.connect` and `RabbitMQCommandBus.connect`, made
structural on `remaining = maxRetries - retries`.  `succeeds n` tells
whether the `n`-th (1-based) `amqp.connect` attempt succeeds.  On a
failure the code increments `retries`, computes
`delayMs = min(1000 * 2 ^ retries, 30000)` with the incremented counter,
throws the fatal error if `retries >= maxRetries` (before any sleep),
and otherwise sleeps `delayMs`.  Returns the trace and whether the call
returned normally (`true`) or threw the fatal error (`false`). -/
def connectGo (succeeds : Nat → Bool) : Nat → Nat → List COp × Bool
  | _, 0 => ([], true)
  | retries, remaining + 1 =>
    if succeeds (retries + 1) then ([COp.attempt (retries + 1)], true)
    else
      let retries1 := retries + 1
      let delayMs := min (1000 * 2 ^ retries1) 30000
      if remaining = 0 then ([COp.attempt retries1], false)
      else
        let rest := connectGo succeeds retries1 remaining
        (COp.attempt retries1 :: COp.sleep delayMs :: rest.1, rest.2)

/-- `connect()` with the hard-coded `maxRetries = 5`, from `retries = 0`. -/
def connect (succeeds : Nat → Bool) : List COp × Bool :=
  connectGo succeeds 0 5

/-- The backoff sleeps of a connect trace, in order. -/
def sleeps (t : List COp) : List Nat :=
  t.filterMap fun o => match o with | COp.sleep ms => some ms | _ => none

/-- Number of connection attempts in a connect trace. -/
def attemptCount (t : List COp) : Nat :=
  (t.filter fun o => match o with | COp.attempt _ => true | _ => false).length

end Connect

namespace Pub

/-- Behaviour of the local `channel.publish` primitive on one call:
it may throw, return `false` (write-buffer backpressure), or return
`true`. -/
inductive SendRes where
  | thrown
  | retFalse
  | retTrue
deriving Repr, DecidableEq

/-- The environment one `publish(envelope)` call runs in:
whether `this.channel` is non-null, whether
`Buffer.from(JSON.stringify(...))` succeeds, and what the send
primitive does. -/
structure PubEnv where
  channelReady : Bool
  encodeOk : Bool
  sendRes : SendRes
deriving Repr, DecidableEq

/-- Caller-visible outcome of one `publish` call: the returned promise
resolved (recording whether a warning was logged on the way), or an
error was raised to the caller. -/
inductive PubResult where
  | resolved (warned : Bool)
  | raised
deriving Repr, DecidableEq

/-- `RabbitMQEventBus.publish`: a null channel throws; an exception from
encoding or from `channel.publish` is logged and re-thrown; but
`channel.publish` returning `false` only logs a
"Publisher backpressure detected" warning and the call resolves. -/
def eventBusPublish (e : PubEnv) : PubResult :=
  if !e.channelReady then PubResult.raised
  else if !e.encodeOk then PubResult.raised
  else
    match e.sendRes with
    | SendRes.thrown => PubResult.raised
    | SendRes.retFalse => PubResult.resolved true
    | SendRes.retTrue => PubResult.resolved false

/-- `RabbitMQCommandBus.publish`: same shape, except that
`channel.publish` returning `false` throws
`new Error('Failed to publish command to RabbitMQ')`, which the catch
block logs and re-throws. -/
def commandBusPublish (e : PubEnv) : PubResult :=
  if !e.channelReady then PubResult.raised
  else if !e.encodeOk then PubResult.raised
  else
    match e.sendRes with
    | SendRes.thrown => PubResult.raised
    | SendRes.retFalse => PubResult.raised
    | SendRes.retTrue => PubResult.resolved false

/-- How many times a single `publish` call reaches the send primitive:
once when the channel and the encoder cooperate, never more (there is no
retry loop in either bus). -/
def sendAttempts (e : PubEnv) : Nat :=
  if !e.channelReady then 0 else if !e.encodeOk then 0 else 1

/-- Is the outcome an error raised to the caller? -/
def isRaised (r : PubResult) : Bool :=
  match r with
  | PubResult.raised => true
  | PubResult.resolved _ => false

/-- What a `publishBatch` call produces: the per-item outcomes (the
`allSettled` view), the number of failed items, whether the batch-level
warning was logged, and the value the caller receives — `Except.ok ()`
models the promise resolving with `void`, `Except.error ()` a rejection. -/
structure BatchOutcome where
  results : List PubResult
  failedCount : Nat
  warnedBatch : Bool
  callerResult : Except Unit Unit
deriving Repr

/-- `RabbitMQEventBus.publishBatch`: `Promise.allSettled` runs every
item's `publish` regardless of the others; the rejected ones are
counted and, when there are any, a warning
`"k/n events failed to publish"` is logged; the call always resolves
with `void`. -/
def eventBusPublishBatch (items : List PubEnv) : BatchOutcome :=
  let results := items.map eventBusPublish
  let failed := (results.filter isRaised).length
  { results := results
    failedCount := failed
    warnedBatch := decide (0 < failed)
    callerResult := Except.ok () }

/-- `RabbitMQCommandBus.publishBatch`: `Promise.all` also starts every
item's `publish`, but the combined promise rejects as soon as any item
rejects, and the catch block logs and re-throws that single error; no
list of failures reaches the caller. -/
def commandBusPublishBatch (items : List PubEnv) : BatchOutcome :=
  let results := items.map commandBusPublish
  let failed := (results.filter isRaised).length
  { results := results
    failedCount := failed
    warnedBatch := false
    callerResult := if 0 < failed then Except.error () else Except.ok () }

end Pub

namespace Sub

/-- A registered handler: an identity plus its `entityType()`. -/
structure Handler where
  hid : Nat
  entityType : String
deriving Repr, DecidableEq

/-- A broker consumer installed by `channel.consume`: the queue it
consumes and the handler reference its callback closed over. -/
structure Consumer where
  queue : String
  handlerId : Nat
deriving Repr, DecidableEq

/-- In-process state of one `RabbitMQEventBus` instance that is relevant
to subscribe/unsubscribe: asserted queues, queue-to-exchange bindings,
the `handlers : Map<string, IEventHandler[]>` registry, and the
installed broker consumers. -/
structure BusState where
  queues : List String
  bindings : List (String × String)
  handlers : List (String × List Nat)
  consumers : List Consumer
deriving Repr, DecidableEq

/-- `this.handlers.get(eventType) || []`. -/
def lookupHandlers (hs : List (String × List Nat)) (eventType : String) :
    List Nat :=
  match hs with
  | [] => []
  | p :: rest => if p.1 == eventType then p.2 else lookupHandlers rest eventType

/-- Registry update done by `subscribe`: create the key if absent, then
push the handler. -/
def addHandler (hs : List (String × List Nat)) (eventType : String)
    (hid : Nat) : List (String × List Nat) :=
  match hs with
  | [] => [(eventType, [hid])]
  | p :: rest =>
    if p.1 == eventType then (p.1, p.2 ++ [hid]) :: rest
    else p :: addHandler rest eventType hid

/-- `handlers.indexOf(handler); if (index > -1) handlers.splice(index, 1)`:
remove the first occurrence, if any. -/
def removeFirstOcc (l : List Nat) (hid : Nat) : List Nat :=
  match l with
  | [] => []
  | x :: rest => if x == hid then rest else x :: removeFirstOcc rest hid

/-- Registry update done by `unsubscribe`: splice the handler out of the
array stored under `eventType`; every other key is untouched and a
missing key stays missing. -/
def removeHandler (hs : List (String × List Nat)) (eventType : String)
    (hid : Nat) : List (String × List Nat) :=
  match hs with
  | [] => []
  | p :: rest =>
    if p.1 == eventType then (p.1, removeFirstOcc p.2 hid) :: rest
    else p :: removeHandler rest eventType hid

/-- `subscribe(handler, eventType)`: assert the queue
`agentic.{entityType}.{eventType}` (idempotent on the broker), bind it
on routing key `{entityType}.{eventType}`, push the handler into the
registry, and install a consumer whose callback holds a direct reference
to `handler`. -/
def subscribe (b : BusState) (h : Handler) (eventType : String) : BusState :=
  let queueName := "agentic." ++ h.entityType ++ "." ++ eventType
  let routingKey := h.entityType ++ "." ++ eventType
  { queues := if queueName ∈ b.queues then b.queues else b.queues ++ [queueName]
    bindings :=
      if (queueName, routingKey) ∈ b.bindings then b.bindings
      else b.bindings ++ [(queueName, routingKey)]
    handlers := addHandler b.handlers eventType h.hid
    consumers := b.consumers ++ [⟨queueName, h.hid⟩] }

/-- `unsubscribe(handler, eventType)`: only the in-memory registry is
touched — no queue deletion, no unbinding, no consumer cancellation. -/
def unsubscribe (b : BusState) (h : Handler) (eventType : String) : BusState :=
  { b with handlers := removeHandler b.handlers eventType h.hid }

/-- The handlers a message delivered on queue `q` is dispatched to: each
installed consumer on `q` invokes the handler its callback captured. -/
def deliverTargets (b : BusState) (q : String) : List Nat :=
  (b.consumers.filter fun c => c.queue == q).map fun c => c.handlerId

end Sub

namespace CDC

/-- A row of `audit.event_log` as far as the cursor service reads it:
its primary-key `id` (modelled as a `Nat` ordered by the comparison the
`id > $2` / `ORDER BY id ASC` SQL uses), its `entity_type`, and its
`event_type` discriminator (`'INSERT'`, `'UPDATE'`, ...). -/
structure Row where
  id : Nat
  entityType : String
  eventType : String
deriving Repr, DecidableEq

/-- The database state the `ChangeDataCapture` service touches: the
append-only `audit.event_log` and the `audit.cdc_position` table
(`table_name → last_lsn`).  A `last_lsn` of `none` covers SQL `NULL`
and the literal `'0'`, both of which the code normalises to the empty
cursor (`lsn = row.last_lsn === '0' || !row.last_lsn ? '' : row.last_lsn`). -/
structure DB where
  eventLog : List Row
  positions : List (String × Option Nat)
deriving Repr, DecidableEq

/-- The cursor comparison: with no stored position, every row qualifies
(the code omits the `AND id > $2` clause); otherwise `id > lastSeenId`. -/
def cursorLtB : Option Nat → Nat → Bool
  | none, _ => true
  | some c, n => decide (c < n)

/-- Insert a row into an id-sorted list, keeping it sorted. -/
def insertById (r : Row) : List Row → List Row
  | [] => [r]
  | s :: rest =>
    if r.id ≤ s.id then r :: s :: rest else s :: insertById r rest

/-- `ORDER BY id ASC` on a result set. -/
def sortById : List Row → List Row
  | [] => []
  | r :: rest => insertById r (sortById rest)

/-- `SELECT * FROM audit.event_log WHERE entity_type = $1
[AND id > $2] ORDER BY id ASC`. -/
def queryChanges (log : List Row) (et : String) (lastPosition : Option Nat) :
    List Row :=
  sortById (log.filter fun r => r.entityType == et && cursorLtB lastPosition r.id)

/-- Keyed read of a `cdc_position` table state (`table_name` is UNIQUE,
so the first matching row is the row). -/
def posLookup (ps : List (String × Option Nat)) (tableName : String) :
    Option Nat :=
  match ps with
  | [] => none
  | p :: rest => if p.1 == tableName then p.2 else posLookup rest tableName

/-- Read of the `cdc_position` snapshot for one `table_name`. -/
def getCursor (db : DB) (tableName : String) : Option Nat :=
  posLookup db.positions tableName

/-- `INSERT INTO audit.cdc_position ... ON CONFLICT (table_name)
DO UPDATE SET last_lsn = $2`. -/
def setCursor (ps : List (String × Option Nat)) (tableName : String)
    (n : Nat) : List (String × Option Nat) :=
  match ps with
  | [] => [(tableName, some n)]
  | p :: rest =>
    if p.1 == tableName then (p.1, some n) :: rest
    else p :: setCursor rest tableName n

/-- Observable actions of one entity-type pass: publishing the event
built from a row (recording whether the publish resolved) and the
cursor upsert that follows a successful publish. -/
inductive Op where
  | pub (rowId : Nat) (ok : Bool)
  | setC (rowId : Nat)
deriving Repr, DecidableEq

/-- Result of one `process*Changes` call: the database afterwards, the
rows that were translated into published events (in publish order), the
action trace, and whether the call returned normally (`false` means a
publish rejection propagated out of the `for` loop). -/
structure PassResult where
  db : DB
  published : List Row
  trace : List Op
  ok : Bool
deriving Repr, DecidableEq

/-- The `for (const row of result.rows)` loop shared by
`processClienteChanges`, `processProdutoChanges` and
`processPedidoChanges`: only rows with `event_type === 'INSERT'` build
and publish an event; a resolved publish is followed by the cursor
upsert to that row's id; a rejected publish throws out of the loop,
leaving the database writes made so far in place.  `pub r` tells whether
`eventBus.publish` of the event built from `r` resolves. -/
def processRows (tableName : String) (pub : Row → Bool) :
    List Row → DB → PassResult
  | [], db => ⟨db, [], [], true⟩
  | r :: rest, db =>
    if r.eventType == "INSERT" then
      if pub r then
        let db1 : DB := { db with positions := setCursor db.positions tableName r.id }
        let res := processRows tableName pub rest db1
        ⟨res.db, r :: res.published, Op.pub r.id true :: Op.setC r.id :: res.trace, res.ok⟩
      else ⟨db, [], [Op.pub r.id false], false⟩
    else processRows tableName pub rest db

/-- One `process*Changes` call: run the change query against the log
with the given cursor snapshot, then the row loop. -/
def processEntity (db : DB) (et : String) (lastPosition : Option Nat)
    (pub : Row → Bool) : PassResult :=
  processRows et pub (queryChanges db.eventLog et lastPosition) db

/-- Result of one `checkForChanges` cycle. -/
structure CycleResult where
  db : DB
  published : List Row
  ok : Bool
deriving Repr, DecidableEq

/-- `checkForChanges`: read the whole `cdc_position` table once into a
snapshot map, then `await` the Cliente, Produto and Pedido passes in
that order.  There is no per-pass `try`/`catch`: an exception from one
pass propagates immediately (the remaining passes do not run this
cycle), to be caught by the `poll` loop. -/
def checkForChanges (pub : Row → Bool) (db : DB) : CycleResult :=
  let snap := fun et => getCursor db et
  let c := processEntity db "Cliente" (snap "Cliente") pub
  if c.ok then
    let p := processEntity c.db "Produto" (snap "Produto") pub
    if p.ok then
      let q := processEntity p.db "Pedido" (snap "Pedido") pub
      ⟨q.db, c.published ++ p.published ++ q.published, q.ok⟩
    else ⟨p.db, c.published ++ p.published, false⟩
  else ⟨c.db, c.published, false⟩

/-- One tick of the `poll` loop: `checkForChanges` with its error caught
and logged — the loop keeps the database effects made before the
exception and sleeps until the next tick. -/
def tick (pub : Row → Bool) (db : DB) : DB :=
  (checkForChanges pub db).db

/-- The `processClienteChanges` call of a cycle, with the cursor
snapshot taken from the cycle's starting state. -/
def clientePass (pub : Row → Bool) (db : DB) : PassResult :=
  processEntity db "Cliente" (getCursor db "Cliente") pub

/-- The `processProdutoChanges` call of a cycle: it runs on the state
left by the `Cliente` pass but reads the `Produto` cursor from the
snapshot taken at cycle start. -/
def produtoPass (pub : Row → Bool) (db : DB) : PassResult :=
  processEntity (clientePass pub db).db "Produto" (getCursor db "Produto") pub

/-- The `processPedidoChanges` call of a cycle: it runs on the state
left by the `Produto` pass but reads the `Pedido` cursor from the
snapshot taken at cycle start. -/
def pedidoPass (pub : Row → Bool) (db : DB) : PassResult :=
  processEntity (produtoPass pub db).db "Pedido" (getCursor db "Pedido") pub

/-- Order on cursor values: an absent cursor precedes every stored one. -/
def cursorLE : Option Nat → Option Nat → Prop
  | none, _ => True
  | some _, none => False
  | some a, some b => a ≤ b

end CDC

namespace DLQ

/-- A parsed envelope, reduced to its identity. -/
structure Event where
  eid : String
deriving Repr, DecidableEq

/-- A message sitting in the dead-letter queue: its broker delivery tag
and the result of `JSON.parse` on its content (`none` = malformed). -/
structure Delivery where
  tag : Nat
  body : Option Event
deriving Repr, DecidableEq

/-- An AMQP channel restricted to the dead-letter queue: the messages
still in the queue, and the deliveries fetched with `noAck: false` that
are awaiting an ack/nack. -/
structure Chan where
  queue : List Delivery
  unacked : List Delivery
deriving Repr, DecidableEq

/-- `channel.nack(message, false, requeue)`: amqplib reads
`message.fields.deliveryTag`; on an object with no such fields the
property access throws a `TypeError`.  With a real tag, `requeue = true`
returns the delivery to the queue and removes it from the unacked set. -/
def chanNack (c : Chan) (fieldsTag : Option Nat) (requeue : Bool) :
    Except String Chan :=
  match fieldsTag with
  | none => Except.error "TypeError"
  | some t =>
    if requeue then
      Except.ok ⟨c.queue ++ c.unacked.filter fun d => d.tag == t,
                 c.unacked.filter fun d => d.tag != t⟩
    else Except.ok ⟨c.queue, c.unacked.filter fun d => d.tag != t⟩

/-- Casting a parsed `DomainEvent` to an `amqp.Message`
(`messages[0] as unknown as amqp.Message`): the envelope object carries
no broker delivery fields, so there is no delivery tag to read. -/
def eventFieldsTag (_e : Event) : Option Nat :=
  none

/-- The fetch loop of `getDLQMessages`: up to `limit` iterations of
`channel.get(DLQ_QUEUE, { noAck: false })` — each fetched delivery
leaves the queue and joins the unacked set — stopping early on an empty
queue; a delivery whose content fails `JSON.parse` is logged and
skipped, a parsed one is collected. -/
def fetchParse : Nat → Chan → List Event × Chan
  | 0, c => ([], c)
  | n + 1, c =>
    match c.queue with
    | [] => ([], c)
    | d :: rest =>
      let c1 : Chan := ⟨rest, c.unacked ++ [d]⟩
      match d.body with
      | some e =>
        let r := fetchParse n c1
        (e :: r.1, r.2)
      | none => fetchParse n c1

/-- The `messages.forEach(() => channel.nack(messages[0], false, true))`
loop: one nack call per collected message, every call aimed at
`messages[0]`. -/
def nackLoop (firstTag : Option Nat) : Nat → Chan → Except String Chan
  | 0, c => Except.ok c
  | n + 1, c =>
    match chanNack c firstTag true with
    | Except.error s => Except.error s
    | Except.ok c1 => nackLoop firstTag n c1

/-- `getDLQMessages(limit)`: fetch and parse up to `limit` messages,
then run the nack-back loop, and return the parsed envelopes. -/
def getDLQMessages (limit : Nat) (c : Chan) :
    Except String (List Event × Chan) :=
  let fp := fetchParse limit c
  match nackLoop (fp.1.head?.bind eventFieldsTag) fp.1.length fp.2 with
  | Except.error s => Except.error s
  | Except.ok c2 => Except.ok (fp.1, c2)

end DLQ

namespace Retry

theorem ackCount_append (s t : List DOp) :
    ackCount (s ++ t) = ackCount s + ackCount t := by
  simp [ackCount, List.filter_append]

theorem nackCount_append (s t : List DOp) :
    nackCount (s ++ t) = nackCount s + nackCount t := by
  simp [nackCount, List.filter_append]

/-- The retry loop itself never acknowledges: `ack`/`nack` happen only
in the consume callback around it. -/
theorem retryGo_no_final (cfg : RetryConfig) (succeeds : Nat → Bool) :
    ∀ remaining attempt,
      ackCount (retryGo cfg succeeds attempt remaining).1 = 0 ∧
      nackCount (retryGo cfg succeeds attempt remaining).1 = 0 := by
  intro remaining
  induction remaining with
  | zero =>
    intro attempt
    by_cases h : succeeds attempt = true <;>
      simp [retryGo, h, ackCount, nackCount]
  | succ n ih =>
    intro attempt
    by_cases h : succeeds attempt = true
    · simp [retryGo, h, ackCount, nackCount]
    · have := ih (attempt + 1)
      simp [retryGo, h, ackCount, nackCount] at this ⊢
      exact this

/-- If the handler never succeeds, the retry loop reports failure. -/
theorem retryGo_allFail (cfg : RetryConfig) (succeeds : Nat → Bool)
    (hf : ∀ a, succeeds a = false) :
    ∀ remaining attempt, (retryGo cfg succeeds attempt remaining).2 = false := by
  intro remaining
  induction remaining with
  | zero => intro attempt; simp [retryGo, hf]
  | succ n ih => intro attempt; simp [retryGo, hf, ih]

end Retry

namespace Connect

/-- The connect loop with `remaining` budget makes at most `remaining`
attempts. -/
theorem connectGo_attemptCount_le (succeeds : Nat → Bool) :
    ∀ remaining retries,
      attemptCount (connectGo succeeds retries remaining).1 ≤ remaining := by
  intro remaining
  induction remaining with
  | zero => intro retries; simp [connectGo, attemptCount]
  | succ n ih =>
    intro retries
    by_cases h : succeeds (retries + 1) = true
    · simp [connectGo, h, attemptCount]
    · by_cases hn : n = 0
      · simp [connectGo, h, hn, attemptCount]
      · have := ih (retries + 1)
        simp [connectGo, h, hn, attemptCount] at this ⊢
        omega

end Connect

namespace Sub

/-- Effect of the `unsubscribe` registry update on lookups: the given
event type loses the first occurrence of the handler, every other key
reads unchanged. -/
theorem lookupHandlers_removeHandler (et : String) (hid : Nat) :
    ∀ (hs : List (String × List Nat)) (et2 : String),
      lookupHandlers (removeHandler hs et hid) et2 =
        if et2 = et then removeFirstOcc (lookupHandlers hs et) hid
        else lookupHandlers hs et2 := by
  intro hs
  induction hs with
  | nil =>
    intro et2
    by_cases he : et2 = et <;>
      simp [removeHandler, lookupHandlers, removeFirstOcc, he]
  | cons p rest ih =>
    intro et2
    by_cases hp : p.1 = et
    · by_cases he : et2 = et
      · subst he
        simp [removeHandler, lookupHandlers, hp]
      · have hp2 : ¬ p.1 = et2 := fun hc => he (hc.symm.trans hp)
        have he3 : ¬ et = et2 := fun hc => he hc.symm
        simp [removeHandler, lookupHandlers, hp, hp2, he, he3]
    · by_cases he2 : p.1 = et2
      · have he : ¬ et2 = et := fun hc => hp (he2.trans hc)
        simp [removeHandler, lookupHandlers, hp, he2, he]
      · simp [removeHandler, lookupHandlers, hp, he2, ih et2]

end Sub

namespace CDC

theorem cursorLE_refl (v : Option Nat) : cursorLE v v := by
  cases v <;> simp [cursorLE]

theorem cursorLE_of_ltB (init : Option Nat) (n : Nat)
    (h : cursorLtB init n = true) : cursorLE init (some n) := by
  cases init with
  | none => simp [cursorLE]
  | some c =>
    simp [cursorLtB] at h
    simp [cursorLE]
    omega

theorem mem_insertById (x r : Row) :
    ∀ l : List Row, x ∈ insertById r l ↔ x = r ∨ x ∈ l := by
  intro l
  induction l with
  | nil => simp [insertById]
  | cons s rest ih =>
    by_cases h : r.id ≤ s.id
    · simp [insertById, h]
    · simp [insertById, h, ih]
      tauto

theorem mem_sortById (x : Row) : ∀ l : List Row, x ∈ sortById l ↔ x ∈ l := by
  intro l
  induction l with
  | nil => simp [sortById]
  | cons r rest ih => simp [sortById, mem_insertById, ih]

theorem pairwise_insertById (r : Row) :
    ∀ l : List Row, l.Pairwise (fun a b => a.id ≤ b.id) →
      (insertById r l).Pairwise (fun a b => a.id ≤ b.id) := by
  intro l
  induction l with
  | nil => intro _; simp [insertById]
  | cons s rest ih =>
    intro hp
    rw [List.pairwise_cons] at hp
    by_cases h : r.id ≤ s.id
    · rw [insertById, if_pos h, List.pairwise_cons]
      refine ⟨?_, List.pairwise_cons.mpr hp⟩
      intro b hb
      rcases List.mem_cons.mp hb with hb | hb
      · exact hb ▸ h
      · exact Nat.le_trans h (hp.1 b hb)
    · rw [insertById, if_neg h, List.pairwise_cons]
      refine ⟨?_, ih hp.2⟩
      intro b hb
      rcases (mem_insertById b r rest).mp hb with hb | hb
      · subst hb; omega
      · exact hp.1 b hb

theorem pairwise_sortById :
    ∀ l : List Row, (sortById l).Pairwise (fun a b => a.id ≤ b.id) := by
  intro l
  induction l with
  | nil => simp [sortById]
  | cons r rest ih => exact pairwise_insertById r (sortById rest) ih

/-- Membership in the change query result. -/
theorem mem_queryChanges (r : Row) (log : List Row) (et : String)
    (cur : Option Nat) :
    r ∈ queryChanges log et cur ↔
      (r ∈ log ∧ r.entityType = et ∧ cursorLtB cur r.id = true) := by
  simp [queryChanges, mem_sortById, List.mem_filter]

theorem posLookup_setCursor_self (t : String) (n : Nat) :
    ∀ ps : List (String × Option Nat),
      posLookup (setCursor ps t n) t = some n := by
  intro ps
  induction ps with
  | nil => simp [setCursor, posLookup]
  | cons p rest ih =>
    by_cases h : p.1 = t <;> simp [setCursor, posLookup, h, ih]

theorem posLookup_setCursor_ne (t t2 : String) (n : Nat) (hne : t2 ≠ t) :
    ∀ ps : List (String × Option Nat),
      posLookup (setCursor ps t n) t2 = posLookup ps t2 := by
  have h3 : ¬ t = t2 := fun hc => hne hc.symm
  intro ps
  induction ps with
  | nil => simp [setCursor, posLookup, h3]
  | cons p rest ih =>
    by_cases h : p.1 = t
    · have h2 : ¬ p.1 = t2 := fun hc => hne (hc.symm.trans h)
      simp [setCursor, posLookup, h, h2, h3]
    · by_cases h2 : p.1 = t2 <;>
        simp [setCursor, posLookup, h, h2, h3, hne, ih]

/-- The row loop never touches the event log. -/
theorem processRows_eventLog (t : String) (pub : Row → Bool) :
    ∀ (rows : List Row) (db : DB),
      (processRows t pub rows db).db.eventLog = db.eventLog := by
  intro rows
  induction rows with
  | nil => intro db; simp [processRows]
  | cons r rest ih =>
    intro db
    by_cases hins : r.eventType == "INSERT"
    · by_cases hp : pub r = true <;>
        simp [processRows, hins, hp, ih]
    · simp [processRows, hins, ih]

/-- The row loop for entity type `t` writes no other entity type's
cursor. -/
theorem processRows_cursor_frame (t t2 : String) (pub : Row → Bool)
    (hne : t2 ≠ t) :
    ∀ (rows : List Row) (db : DB),
      getCursor (processRows t pub rows db).db t2 = getCursor db t2 := by
  intro rows
  induction rows with
  | nil => intro db; simp [processRows]
  | cons r rest ih =>
    intro db
    by_cases hins : r.eventType == "INSERT"
    · by_cases hp : pub r = true
      · simp only [processRows, hins, if_true, hp, if_pos]
        rw [ih]
        exact posLookup_setCursor_ne t t2 r.id hne db.positions
      · simp [processRows, hins, hp]
    · simp only [processRows, hins, Bool.false_eq_true, if_false]
      exact ih db

/-- If every row of the batch lies beyond `init` and the stored cursor
already is at or beyond `init`, it stays at or beyond `init` through
the row loop — whether or not, and wherever, a publish fails. -/
theorem processRows_cursor_mono (t : String) (pub : Row → Bool)
    (init : Option Nat) :
    ∀ (rows : List Row) (db : DB),
      (∀ r ∈ rows, cursorLtB init r.id = true) →
      cursorLE init (getCursor db t) →
      cursorLE init (getCursor (processRows t pub rows db).db t) := by
  intro rows
  induction rows with
  | nil => intro db _ hbase; simpa [processRows] using hbase
  | cons r rest ih =>
    intro db hall hbase
    by_cases hins : r.eventType == "INSERT"
    · by_cases hp : pub r = true
      · simp only [processRows, hins, if_true, hp, if_pos]
        refine ih _ (fun x hx => hall x (List.mem_cons_of_mem r hx)) ?_
        have hcur : getCursor
            { db with positions := setCursor db.positions t r.id } t =
            some r.id := posLookup_setCursor_self t r.id db.positions
        rw [hcur]
        exact cursorLE_of_ltB init r.id (hall r (List.mem_cons_self r rest))
      · simpa [processRows, hins, hp] using hbase
    · simp only [processRows, hins, Bool.false_eq_true, if_false]
      exact ih _ (fun x hx => hall x (List.mem_cons_of_mem r hx)) hbase

/-- With a publish function that always resolves, the rows translated
into events are exactly the `INSERT` rows of the batch, in batch
order. -/
theorem processRows_published_allOk (t : String) :
    ∀ (rows : List Row) (db : DB),
      (processRows t (fun _ => true) rows db).published =
        rows.filter (fun r => r.eventType == "INSERT") := by
  intro rows
  induction rows with
  | nil => intro db; simp [processRows]
  | cons r rest ih =>
    intro db
    by_cases hins : r.eventType == "INSERT" <;>
      simp [processRows, hins, List.filter_cons, ih]

/-- Every cursor write in a row-loop trace is immediately preceded by
the successful publish of the event built from the same row. -/
theorem processRows_setC_after_pub (t : String) (pub : Row → Bool) :
    ∀ (rows : List Row) (db : DB) (l1 : List Op) (n : Nat) (l2 : List Op),
      (processRows t pub rows db).trace = l1 ++ Op.setC n :: l2 →
      ∃ l0, l1 = l0 ++ [Op.pub n true] := by
  intro rows
  induction rows with
  | nil =>
    intro db l1 n l2 h
    simp [processRows] at h
  | cons r rest ih =>
    intro db l1 n l2 h
    by_cases hins : r.eventType == "INSERT"
    · by_cases hp : pub r = true
      · simp only [processRows, hins, if_true, hp, if_pos] at h
        match l1 with
        | [] => simp at h
        | [x] =>
          simp at h
          obtain ⟨hx, hn, -⟩ := h
          refine ⟨[], ?_⟩
          simp [← hx, hn]
        | x :: y :: l1t =>
          simp at h
          obtain ⟨hx, hy, ht⟩ := h
          obtain ⟨l0, hl0⟩ := ih _ l1t n l2 ht
          exact ⟨x :: y :: l0, by simp [hl0]⟩
      · simp only [processRows, hins, if_true, hp, Bool.false_eq_true,
          if_false] at h
        match l1 with
        | [] => simp at h
        | x :: l1t => simp at h
    · simp only [processRows, hins, Bool.false_eq_true, if_false] at h
      exact ih _ l1 n l2 h

theorem cursorLE_trans (a b c : Option Nat) :
    cursorLE a b → cursorLE b c → cursorLE a c := by
  cases a <;> cases b <;> cases c <;> simp [cursorLE]
  omega

/-- One entity-type pass leaves every other entity type's cursor
untouched. -/
theorem processEntity_cursor_frame (db : DB) (t t2 : String)
    (cur : Option Nat) (pub : Row → Bool) (hne : t2 ≠ t) :
    getCursor (processEntity db t cur pub).db t2 = getCursor db t2 :=
  processRows_cursor_frame t t2 pub hne _ db

/-- One entity-type pass run from the stored cursor never moves that
cursor backwards, wherever a publish may fail. -/
theorem processEntity_cursor_mono (db : DB) (t : String) (pub : Row → Bool) :
    cursorLE (getCursor db t)
      (getCursor (processEntity db t (getCursor db t) pub).db t) := by
  refine processRows_cursor_mono t pub (getCursor db t) _ db ?_ (cursorLE_refl _)
  intro r hr
  exact ((mem_queryChanges r db.eventLog t (getCursor db t)).mp hr).2.2

/-- Across one full poll tick, no entity type's stored cursor moves
backwards. -/
theorem tick_cursor_mono (pub : Row → Bool) (db : DB) (et : String) :
    cursorLE (getCursor db et) (getCursor (tick pub db) et) := by
  simp only [tick, checkForChanges]
  set c := processEntity db "Cliente" (getCursor db "Cliente") pub with hc_def
  set p := processEntity c.db "Produto" (getCursor db "Produto") pub with hp_def
  set q := processEntity p.db "Pedido" (getCursor db "Pedido") pub with hq_def
  have h1 : cursorLE (getCursor db et) (getCursor c.db et) := by
    by_cases he : et = "Cliente"
    · subst he
      rw [hc_def]
      exact processEntity_cursor_mono db "Cliente" pub
    · rw [hc_def, processEntity_cursor_frame db "Cliente" et _ pub he]
      exact cursorLE_refl _
  have fP : getCursor c.db "Produto" = getCursor db "Produto" := by
    rw [hc_def]
    exact processEntity_cursor_frame db "Cliente" "Produto" _ pub (by decide)
  have h2 : cursorLE (getCursor c.db et) (getCursor p.db et) := by
    by_cases he : et = "Produto"
    · subst he
      rw [hp_def, ← fP]
      exact processEntity_cursor_mono c.db "Produto" pub
    · rw [hp_def, processEntity_cursor_frame c.db "Produto" et _ pub he]
      exact cursorLE_refl _
  have fPe : getCursor p.db "Pedido" = getCursor db "Pedido" := by
    rw [hp_def, processEntity_cursor_frame c.db "Produto" "Pedido" _ pub (by decide),
      hc_def, processEntity_cursor_frame db "Cliente" "Pedido" _ pub (by decide)]
  have h3 : cursorLE (getCursor p.db et) (getCursor q.db et) := by
    by_cases he : et = "Pedido"
    · subst he
      rw [hq_def, ← fPe]
      exact processEntity_cursor_mono p.db "Pedido" pub
    · rw [hq_def, processEntity_cursor_frame p.db "Pedido" et _ pub he]
      exact cursorLE_refl _
  by_cases hok1 : c.ok = true
  · rw [if_pos hok1]
    by_cases hok2 : p.ok = true
    · rw [if_pos hok2]
      exact cursorLE_trans _ _ _ h1 (cursorLE_trans _ _ _ h2 h3)
    · rw [if_neg hok2]
      exact cursorLE_trans _ _ _ h1 h2
  · rw [if_neg hok1]
    exact h1

/-- `checkForChanges` written through the three pass abbreviations:
the `Produto` pass runs only when the `Cliente` pass returned, the
`Pedido` pass only when both did; a failed pass makes the whole cycle
fail with the events published so far. -/
theorem checkForChanges_passes (pub : Row → Bool) (db : DB) :
    checkForChanges pub db =
      if (clientePass pub db).ok then
        if (produtoPass pub db).ok then
          ⟨(pedidoPass pub db).db,
           (clientePass pub db).published ++ (produtoPass pub db).published ++
             (pedidoPass pub db).published,
           (pedidoPass pub db).ok⟩
        else ⟨(produtoPass pub db).db,
              (clientePass pub db).published ++ (produtoPass pub db).published,
              false⟩
      else ⟨(clientePass pub db).db, (clientePass pub db).published, false⟩ :=
  rfl

theorem getLast?_cons_of_some (a : Op) (l : List Op) (z : Op)
    (h : l.getLast? = some z) : (a :: l).getLast? = some z := by
  cases l with
  | nil => simp at h
  | cons b l2 => rw [List.getLast?_cons_cons]; exact h

/-- If the row loop fails, it fails at the publish of a specific row
(the trace ends with that row's failed publish), and — provided the
batch is ascending and lies entirely beyond the stored cursor — the
cursor afterwards is not advanced past that failing row's id. -/
theorem processRows_fail_not_past (t : String) (pub : Row → Bool) :
    ∀ (rows : List Row) (db : DB),
      rows.Pairwise (fun a b => a.id ≤ b.id) →
      (∀ r ∈ rows, cursorLE (getCursor db t) (some r.id)) →
      (processRows t pub rows db).ok = false →
      ∃ n, (processRows t pub rows db).trace.getLast? =
          some (Op.pub n false) ∧
        cursorLE (getCursor (processRows t pub rows db).db t) (some n) := by
  intro rows
  induction rows with
  | nil =>
    intro db _ _ hok
    simp [processRows] at hok
  | cons r rest ih =>
    intro db hpw hall hok
    rw [List.pairwise_cons] at hpw
    by_cases hins : r.eventType == "INSERT"
    · by_cases hp : pub r = true
      · simp only [processRows, hins, if_true, hp, if_pos] at hok ⊢
        have hcur1 : getCursor
            { db with positions := setCursor db.positions t r.id } t =
            some r.id := posLookup_setCursor_self t r.id db.positions
        have hall1 : ∀ x ∈ rest,
            cursorLE (getCursor
              { db with positions := setCursor db.positions t r.id } t)
              (some x.id) := by
          intro x hx
          rw [hcur1]
          exact hpw.1 x hx
        obtain ⟨n, hlast, hle⟩ := ih _ hpw.2 hall1 hok
        exact ⟨n, getLast?_cons_of_some _ _ _
          (getLast?_cons_of_some _ _ _ hlast), hle⟩
      · simp only [processRows, hins, if_true, hp, Bool.false_eq_true,
          if_false]
        exact ⟨r.id, by simp, hall r (List.mem_cons_self r rest)⟩
    · simp only [processRows, hins, Bool.false_eq_true, if_false] at hok ⊢
      exact ih db hpw.2 (fun x hx => hall x (List.mem_cons_of_mem r hx)) hok

/-- An entity-type pass run from the stored cursor that fails does so
at a specific row's publish and leaves the stored cursor at or below
that row's id: a publish error never advances the cursor past the
failing row. -/
theorem processEntity_fail_not_past (db : DB) (t : String)
    (pub : Row → Bool)
    (h : (processEntity db t (getCursor db t) pub).ok = false) :
    ∃ n, (processEntity db t (getCursor db t) pub).trace.getLast? =
        some (Op.pub n false) ∧
      cursorLE (getCursor (processEntity db t (getCursor db t) pub).db t)
        (some n) := by
  refine processRows_fail_not_past t pub
    (queryChanges db.eventLog t (getCursor db t)) db ?_ ?_ h
  · exact pairwise_sortById _
  · intro r hr
    exact cursorLE_of_ltB _ _
      ((mem_queryChanges r db.eventLog t (getCursor db t)).mp hr).2.2

end CDC

/-- C2: a handler that fails on attempts 1 and 2 and succeeds on
attempt 3, under the default total attempt count `maxRetries = 3`, is
invoked exactly three times, with waits of `baseDelay * 2 ^ (attempt-1)`
(`baseDelay`, then `2 * baseDelay`) between the attempts, and the
delivery is acknowledged exactly once and never negatively
acknowledged; the constructor default for `maxRetries` is 3. -/
theorem claim_C2_retry_three_attempts (cfg : Retry.RetryConfig)
    (h : cfg.maxRetries = 3) :
    Retry.consume cfg true (fun a => a == 3) =
      [Retry.DOp.invoke 1, Retry.DOp.wait (cfg.retryDelayMs * 2 ^ (1 - 1)),
       Retry.DOp.invoke 2, Retry.DOp.wait (cfg.retryDelayMs * 2 ^ (2 - 1)),
       Retry.DOp.invoke 3, Retry.DOp.ack] ∧
    Retry.invokeCount (Retry.consume cfg true (fun a => a == 3)) = 3 ∧
    Retry.ackCount (Retry.consume cfg true (fun a => a == 3)) = 1 ∧
    Retry.nackCount (Retry.consume cfg true (fun a => a == 3)) = 0 ∧
    (Retry.mkRetryConfig none none).maxRetries = 3 := by
  have h1 : cfg.maxRetries - 1 = 2 := by omega
  refine ⟨?_, ?_, ?_, ?_, rfl⟩ <;>
    simp [Retry.consume, Retry.handleWithRetry, h1, Retry.retryGo,
      Retry.invokeCount, Retry.ackCount, Retry.nackCount]

/-- Witness for C2 at the constructor-default configuration. -/
theorem claim_C2_witness :
    (Retry.mkRetryConfig none none).maxRetries = 3 ∧
    Retry.consume (Retry.mkRetryConfig none none) true (fun a => a == 3) =
      [Retry.DOp.invoke 1,
       Retry.DOp.wait ((Retry.mkRetryConfig none none).retryDelayMs * 2 ^ (1 - 1)),
       Retry.DOp.invoke 2,
       Retry.DOp.wait ((Retry.mkRetryConfig none none).retryDelayMs * 2 ^ (2 - 1)),
       Retry.DOp.invoke 3, Retry.DOp.ack] :=
  ⟨by decide,
   (claim_C2_retry_three_attempts (Retry.mkRetryConfig none none) (by decide)).1⟩

/-- C3: every delivered message ends in exactly one `ack` or one `nack`
— never both, never neither; a handler failing on every attempt leads
to a single `nack` with `requeue = false` (dead-letter routing) and no
`ack`; a message whose body fails deserialization is nacked immediately:
no handler invocation, no retry wait, one `nack false`. -/
theorem claim_C3_ack_discipline (cfg : Retry.RetryConfig) (parseOk : Bool)
    (succeeds : Nat → Bool) :
    Retry.ackCount (Retry.consume cfg parseOk succeeds) +
      Retry.nackCount (Retry.consume cfg parseOk succeeds) = 1 ∧
    ((∀ a, succeeds a = false) →
      (Retry.consume cfg true succeeds).getLast? = some (Retry.DOp.nack false) ∧
      Retry.ackCount (Retry.consume cfg true succeeds) = 0 ∧
      Retry.nackCount (Retry.consume cfg true succeeds) = 1) ∧
    Retry.consume cfg false succeeds = [Retry.DOp.nack false] := by
  have hng := Retry.retryGo_no_final cfg succeeds (cfg.maxRetries - 1) 1
  refine ⟨?_, ?_, rfl⟩
  · cases parseOk with
    | false => simp [Retry.consume, Retry.ackCount, Retry.nackCount]
    | true =>
      simp only [Retry.consume, Retry.handleWithRetry, if_true]
      cases hr : (Retry.retryGo cfg succeeds 1 (cfg.maxRetries - 1)).2 <;>
        · simp only [hr, Bool.false_eq_true, if_false, if_true,
            Retry.ackCount_append, Retry.nackCount_append, hng.1, hng.2]
          decide
  · intro hf
    have h2 := Retry.retryGo_allFail cfg succeeds hf (cfg.maxRetries - 1) 1
    refine ⟨?_, ?_, ?_⟩
    · simp only [Retry.consume, Retry.handleWithRetry, if_true, h2,
        Bool.false_eq_true, if_false]
      simp
    · simp only [Retry.consume, Retry.handleWithRetry, if_true, h2,
        Bool.false_eq_true, if_false, Retry.ackCount_append, hng.1]
      decide
    · simp only [Retry.consume, Retry.handleWithRetry, if_true, h2,
        Bool.false_eq_true, if_false, Retry.nackCount_append, hng.2]
      decide

/-- Witness for C3: default configuration, an always-failing handler,
and a parse failure, all at concrete inputs. -/
theorem claim_C3_witness :
    (Retry.ackCount
        (Retry.consume (Retry.mkRetryConfig none none) true (fun _ => false)) +
      Retry.nackCount
        (Retry.consume (Retry.mkRetryConfig none none) true (fun _ => false)) = 1) ∧
    ((Retry.consume (Retry.mkRetryConfig none none) true (fun _ => false)).getLast? =
      some (Retry.DOp.nack false) ∧
      Retry.ackCount (Retry.consume (Retry.mkRetryConfig none none) true (fun _ => false)) = 0 ∧
      Retry.nackCount (Retry.consume (Retry.mkRetryConfig none none) true (fun _ => false)) = 1) ∧
    Retry.consume (Retry.mkRetryConfig none none) false (fun _ => false) =
      [Retry.DOp.nack false] := by
  have h := claim_C3_ack_discipline (Retry.mkRetryConfig none none) true (fun _ => false)
  exact ⟨h.1, h.2.1 (fun _ => rfl), h.2.2⟩

/-- C4 counterexample: with every connection attempt failing, the sleep
sequence is `2s, 4s, 8s, 16s` — not the `1s, 2s, 4s, 8s, 16s` the claim
states — and the fatal error is raised at the fifth failed attempt:
there is no sixth attempt at all. -/
theorem claim_C4_counterexample :
    Connect.sleeps (Connect.connect (fun _ => false)).1 ≠
      [1000, 2000, 4000, 8000, 16000] ∧
    Connect.attemptCount (Connect.connect (fun _ => false)).1 = 5 ∧
    (Connect.connect (fun _ => false)).2 = false := by
  decide

/-- C4 amended: `connect()` makes at most five attempts in total; when
all of them fail, the backoff sleeps after failed attempts 1–4 are
`min(1s * 2^k, 30s) = 2s, 4s, 8s, 16s`, and the fifth consecutive
failure raises the fatal error without sleeping again or attempting a
sixth connection. -/
theorem claim_C4_amended :
    Connect.connect (fun _ => false) =
      ([Connect.COp.attempt 1, Connect.COp.sleep 2000,
        Connect.COp.attempt 2, Connect.COp.sleep 4000,
        Connect.COp.attempt 3, Connect.COp.sleep 8000,
        Connect.COp.attempt 4, Connect.COp.sleep 16000,
        Connect.COp.attempt 5], false) ∧
    (∀ succeeds, Connect.attemptCount (Connect.connect succeeds).1 ≤ 5) := by
  exact ⟨by decide, fun succeeds => Connect.connectGo_attemptCount_le succeeds 5 0⟩

/-- C7 counterexample: the event bus's `publish`, with a live channel
and a successful encoding, treats `channel.publish` returning `false`
as mere backpressure — it logs a warning and the call resolves instead
of propagating an error to the caller. -/
theorem claim_C7_counterexample :
    Pub.eventBusPublish ⟨true, true, Pub.SendRes.retFalse⟩ =
      Pub.PubResult.resolved true ∧
    Pub.eventBusPublish ⟨true, true, Pub.SendRes.retFalse⟩ ≠
      Pub.PubResult.raised := by
  decide

/-- C7 amended: in both buses a missing channel, an encoding failure,
or a throwing send primitive propagates as an error to the caller, and
a single `publish` call reaches the send primitive at most once (no
retry at this layer).  A send primitive that merely returns `false` is
an error only in the command bus; the event bus logs a backpressure
warning and resolves. -/
theorem claim_C7_amended (e : Pub.PubEnv) :
    (Pub.eventBusPublish e = Pub.PubResult.raised ↔
      (e.channelReady = false ∨ e.encodeOk = false ∨
        e.sendRes = Pub.SendRes.thrown)) ∧
    (Pub.commandBusPublish e = Pub.PubResult.raised ↔
      (e.channelReady = false ∨ e.encodeOk = false ∨
        e.sendRes ≠ Pub.SendRes.retTrue)) ∧
    Pub.sendAttempts e ≤ 1 := by
  rcases e with ⟨cr, eo, sr⟩
  cases cr <;> cases eo <;> cases sr <;> decide

/-- C8 counterexample: in a two-item batch on the event bus where the
first send fails and the second succeeds, `publishBatch` resolves with
plain `void` — the caller receives no list of failures (the single
failure lives only in a logged warning). -/
theorem claim_C8_counterexample :
    (Pub.eventBusPublishBatch
      [⟨false, true, Pub.SendRes.retTrue⟩,
       ⟨true, true, Pub.SendRes.retTrue⟩]).failedCount = 1 ∧
    (Pub.eventBusPublishBatch
      [⟨false, true, Pub.SendRes.retTrue⟩,
       ⟨true, true, Pub.SendRes.retTrue⟩]).callerResult = Except.ok () :=
  ⟨by decide, rfl⟩

/-- C8 amended: batch sends are independent per item — each item's
outcome is a function of that item alone, unaffected by the items
around it, in both buses — and the event-bus batch call always resolves
with `void`: failures are counted and logged as a warning but never
returned to the caller as a list; the command-bus batch call rejects
with the first error when any item failed. -/
theorem claim_C8_amended (pre post : List Pub.PubEnv) (e : Pub.PubEnv) :
    (Pub.eventBusPublishBatch (pre ++ e :: post)).results[pre.length]? =
      some (Pub.eventBusPublish e) ∧
    (Pub.commandBusPublishBatch (pre ++ e :: post)).results[pre.length]? =
      some (Pub.commandBusPublish e) ∧
    (Pub.eventBusPublishBatch (pre ++ e :: post)).callerResult =
      Except.ok () ∧
    ((Pub.eventBusPublishBatch (pre ++ e :: post)).warnedBatch =
      decide (0 < (Pub.eventBusPublishBatch (pre ++ e :: post)).failedCount)) ∧
    ((Pub.commandBusPublishBatch (pre ++ e :: post)).callerResult =
      if 0 < (Pub.commandBusPublishBatch (pre ++ e :: post)).failedCount then
        Except.error () else Except.ok ()) := by
  have key : ∀ (f : Pub.PubEnv → Pub.PubResult),
      ((pre ++ e :: post).map f)[pre.length]? = some (f e) := by
    intro f
    rw [List.map_append, List.getElem?_append_right (by simp)]
    simp
  exact ⟨key Pub.eventBusPublish, key Pub.commandBusPublish, rfl, rfl, rfl⟩

/-- C9, the code evaluated at the failing input: a dead-letter queue
holding one well-formed message.  `getDLQMessages` fetches and parses
it, then the nack-back loop passes the parsed envelope (`messages[0]`)
— an object with no broker delivery fields — to `channel.nack`, which
throws a `TypeError`; the fetched message has already left the queue,
so the call neither peeks nor succeeds. -/
theorem claim_C9_bug_eval :
    DLQ.getDLQMessages 10 ⟨[⟨1, some ⟨"E1"⟩⟩], []⟩ =
      Except.error "TypeError" ∧
    (DLQ.fetchParse 10 ⟨[⟨1, some ⟨"E1"⟩⟩], []⟩).2.queue = [] ∧
    (DLQ.fetchParse 10 ⟨[⟨1, some ⟨"E1"⟩⟩], []⟩).2.unacked =
      [⟨1, some ⟨"E1"⟩⟩] :=
  ⟨rfl, rfl, rfl⟩

/-- C10: `unsubscribe` changes only the in-memory handler registry —
queues, bindings and installed consumers are untouched, every queue
keeps dispatching to exactly the handlers its consumers captured
(including the one just unsubscribed), the registry entry for the given
event type loses one occurrence of the handler, and every other entry
is unchanged; after `subscribe` then `unsubscribe`, the handler is
still a delivery target of its queue. -/
theorem claim_C10_unsubscribe_frame (b : Sub.BusState) (h : Sub.Handler)
    (et : String) :
    (Sub.unsubscribe b h et).consumers = b.consumers ∧
    (Sub.unsubscribe b h et).queues = b.queues ∧
    (Sub.unsubscribe b h et).bindings = b.bindings ∧
    (∀ q, Sub.deliverTargets (Sub.unsubscribe b h et) q =
      Sub.deliverTargets b q) ∧
    (∀ et2, Sub.lookupHandlers (Sub.unsubscribe b h et).handlers et2 =
      if et2 = et then
        Sub.removeFirstOcc (Sub.lookupHandlers b.handlers et) h.hid
      else Sub.lookupHandlers b.handlers et2) ∧
    h.hid ∈ Sub.deliverTargets (Sub.unsubscribe (Sub.subscribe b h et) h et)
      ("agentic." ++ h.entityType ++ "." ++ et) := by
  refine ⟨rfl, rfl, rfl, fun q => rfl, ?_, ?_⟩
  · intro et2
    exact Sub.lookupHandlers_removeHandler et h.hid b.handlers et2
  · simp [Sub.unsubscribe, Sub.subscribe, Sub.deliverTargets,
      List.filter_append]

/-- C1 counterexample: an `audit.event_log` row for `Cliente` with
`event_type = 'UPDATE'` and id `5`, with no stored cursor.  Its id
compares greater than the stored cursor, yet a full scan cycle with an
always-successful publish translates it into no event at all and leaves
the cursor untouched: the code additionally requires
`event_type === 'INSERT'`, which the claim's "if and only if" omits. -/
theorem claim_C1_counterexample :
    CDC.cursorLtB
      (CDC.getCursor ⟨[⟨5, "Cliente", "UPDATE"⟩], []⟩ "Cliente") 5 = true ∧
    (CDC.checkForChanges (fun _ => true)
      ⟨[⟨5, "Cliente", "UPDATE"⟩], []⟩).published = [] ∧
    CDC.getCursor
      (CDC.tick (fun _ => true) ⟨[⟨5, "Cliente", "UPDATE"⟩], []⟩)
      "Cliente" = none := by
  decide

/-- C1 amended: with a publish that always succeeds, a change-log row
is translated into a published event if and only if its entity type
matches, its id compares greater than the stored cursor value under the
log's id ordering, AND its `event_type` is `'INSERT'`; the rows are
processed in ascending id order. -/
theorem claim_C1_amended_insert_filter (db : CDC.DB) (et : String)
    (cur : Option Nat) (r : CDC.Row) :
    (r ∈ (CDC.processEntity db et cur (fun _ => true)).published ↔
      (r ∈ db.eventLog ∧ r.entityType = et ∧ r.eventType = "INSERT" ∧
        CDC.cursorLtB cur r.id = true)) ∧
    (CDC.processEntity db et cur (fun _ => true)).published.Pairwise
      (fun a b => a.id ≤ b.id) := by
  have hpub : (CDC.processEntity db et cur (fun _ => true)).published =
      (CDC.queryChanges db.eventLog et cur).filter
        (fun r => r.eventType == "INSERT") :=
    CDC.processRows_published_allOk et (CDC.queryChanges db.eventLog et cur) db
  constructor
  · rw [hpub]
    simp [List.mem_filter, CDC.mem_queryChanges]
    tauto
  · rw [hpub]
    exact List.Pairwise.sublist (List.filter_sublist _)
      (CDC.pairwise_sortById _)

/-- C5 counterexample: the log holds a `Cliente` INSERT row (id 1) and
a `Produto` INSERT row (id 2), no cursors; publishing fails exactly for
`Cliente` events.  The claim says the error is isolated to `Cliente`
and `Produto` is still processed that cycle, but the cycle publishes
nothing at all — the exception aborts `checkForChanges` before the
`Produto` pass runs — and the `Produto` cursor is not advanced. -/
theorem claim_C5_counterexample :
    (fun r => r.entityType != "Cliente") (⟨2, "Produto", "INSERT"⟩ : CDC.Row)
      = true ∧
    (CDC.checkForChanges (fun r => r.entityType != "Cliente")
      ⟨[⟨1, "Cliente", "INSERT"⟩, ⟨2, "Produto", "INSERT"⟩], []⟩).published
      = [] ∧
    (CDC.checkForChanges (fun r => r.entityType != "Cliente")
      ⟨[⟨1, "Cliente", "INSERT"⟩, ⟨2, "Produto", "INSERT"⟩], []⟩).ok
      = false ∧
    CDC.getCursor
      (CDC.tick (fun r => r.entityType != "Cliente")
        ⟨[⟨1, "Cliente", "INSERT"⟩, ⟨2, "Produto", "INSERT"⟩], []⟩)
      "Produto" = none := by
  decide

/-- C5 amended: an error raised in any entity-type pass of a cycle
aborts the remaining passes of that cycle and fails the cycle (the
exception is caught and logged only at the poll loop).  Whichever pass
fails: the cycle's published events are exactly those of the passes
that ran, the skipped entity types' cursors are unchanged — so the
next tick queries them from the same point — and the failing entity
type's pass ends at a specific row's failed publish with its stored
cursor not advanced past that row's id. -/
theorem claim_C5_amended_cycle_abort (db : CDC.DB) (pub : CDC.Row → Bool) :
    ((CDC.clientePass pub db).ok = false →
      (CDC.checkForChanges pub db).published =
        (CDC.clientePass pub db).published ∧
      (CDC.checkForChanges pub db).ok = false ∧
      CDC.getCursor (CDC.tick pub db) "Produto" =
        CDC.getCursor db "Produto" ∧
      CDC.getCursor (CDC.tick pub db) "Pedido" =
        CDC.getCursor db "Pedido" ∧
      (∃ n, (CDC.clientePass pub db).trace.getLast? =
          some (CDC.Op.pub n false) ∧
        CDC.cursorLE (CDC.getCursor (CDC.tick pub db) "Cliente") (some n))) ∧
    ((CDC.clientePass pub db).ok = true →
      (CDC.produtoPass pub db).ok = false →
      (CDC.checkForChanges pub db).published =
        (CDC.clientePass pub db).published ++
          (CDC.produtoPass pub db).published ∧
      (CDC.checkForChanges pub db).ok = false ∧
      CDC.getCursor (CDC.tick pub db) "Pedido" =
        CDC.getCursor db "Pedido" ∧
      (∃ n, (CDC.produtoPass pub db).trace.getLast? =
          some (CDC.Op.pub n false) ∧
        CDC.cursorLE (CDC.getCursor (CDC.tick pub db) "Produto") (some n))) ∧
    ((CDC.clientePass pub db).ok = true →
      (CDC.produtoPass pub db).ok = true →
      (CDC.pedidoPass pub db).ok = false →
      (CDC.checkForChanges pub db).published =
        (CDC.clientePass pub db).published ++
          (CDC.produtoPass pub db).published ++
          (CDC.pedidoPass pub db).published ∧
      (CDC.checkForChanges pub db).ok = false ∧
      (∃ n, (CDC.pedidoPass pub db).trace.getLast? =
          some (CDC.Op.pub n false) ∧
        CDC.cursorLE (CDC.getCursor (CDC.tick pub db) "Pedido") (some n))) := by
  have hTick : CDC.tick pub db = (CDC.checkForChanges pub db).db := rfl
  refine ⟨?_, ?_, ?_⟩
  · intro h1
    have hne : ¬ (CDC.clientePass pub db).ok = true := by simp [h1]
    rw [hTick, CDC.checkForChanges_passes, if_neg hne]
    refine ⟨rfl, rfl, ?_, ?_, ?_⟩
    · exact CDC.processEntity_cursor_frame db "Cliente" "Produto" _ pub
        (by decide)
    · exact CDC.processEntity_cursor_frame db "Cliente" "Pedido" _ pub
        (by decide)
    · exact CDC.processEntity_fail_not_past db "Cliente" pub h1
  · intro h1 h2
    have hne : ¬ (CDC.produtoPass pub db).ok = true := by simp [h2]
    rw [hTick, CDC.checkForChanges_passes, if_pos h1, if_neg hne]
    have fP : CDC.getCursor (CDC.clientePass pub db).db "Produto" =
        CDC.getCursor db "Produto" :=
      CDC.processEntity_cursor_frame db "Cliente" "Produto" _ pub (by decide)
    refine ⟨rfl, rfl, ?_, ?_⟩
    · exact (CDC.processEntity_cursor_frame (CDC.clientePass pub db).db
        "Produto" "Pedido" _ pub (by decide)).trans
        (CDC.processEntity_cursor_frame db "Cliente" "Pedido" _ pub
          (by decide))
    · have h2x : (CDC.processEntity (CDC.clientePass pub db).db "Produto"
          (CDC.getCursor (CDC.clientePass pub db).db "Produto") pub).ok
          = false := by
        rw [fP]
        exact h2
      obtain ⟨n, hlast, hle⟩ :=
        CDC.processEntity_fail_not_past (CDC.clientePass pub db).db "Produto"
          pub h2x
      rw [fP] at hlast hle
      exact ⟨n, hlast, hle⟩
  · intro h1 h2 h3
    rw [hTick, CDC.checkForChanges_passes, if_pos h1, if_pos h2]
    have fPe : CDC.getCursor (CDC.produtoPass pub db).db "Pedido" =
        CDC.getCursor db "Pedido" :=
      (CDC.processEntity_cursor_frame (CDC.clientePass pub db).db "Produto"
        "Pedido" _ pub (by decide)).trans
        (CDC.processEntity_cursor_frame db "Cliente" "Pedido" _ pub
          (by decide))
    refine ⟨rfl, h3, ?_⟩
    have h3x : (CDC.processEntity (CDC.produtoPass pub db).db "Pedido"
        (CDC.getCursor (CDC.produtoPass pub db).db "Pedido") pub).ok
        = false := by
      rw [fPe]
      exact h3
    obtain ⟨n, hlast, hle⟩ :=
      CDC.processEntity_fail_not_past (CDC.produtoPass pub db).db "Pedido"
        pub h3x
    rw [fPe] at hlast hle
    exact ⟨n, hlast, hle⟩

/-- Witness for the amended C5: three concrete runs, one per failing
pass.  With publishes failing for `Cliente` events the cycle fails and
the `Produto` cursor is untouched; with publishes failing for `Produto`
events (Cliente pass clean) the `Pedido` cursor is untouched; with
publishes failing for `Pedido` events the cycle still fails and the
`Pedido` cursor stops at or below the failing row. -/
theorem claim_C5_witness :
    ((CDC.checkForChanges (fun r => r.entityType != "Cliente")
      ⟨[⟨1, "Cliente", "INSERT"⟩, ⟨2, "Produto", "INSERT"⟩], []⟩).ok = false ∧
    CDC.getCursor
      (CDC.tick (fun r => r.entityType != "Cliente")
        ⟨[⟨1, "Cliente", "INSERT"⟩, ⟨2, "Produto", "INSERT"⟩], []⟩)
      "Produto" =
      CDC.getCursor ⟨[⟨1, "Cliente", "INSERT"⟩, ⟨2, "Produto", "INSERT"⟩], []⟩
        "Produto") ∧
    CDC.getCursor
      (CDC.tick (fun r => r.entityType != "Produto")
        ⟨[⟨1, "Cliente", "INSERT"⟩, ⟨2, "Produto", "INSERT"⟩,
          ⟨3, "Pedido", "INSERT"⟩], []⟩)
      "Pedido" =
      CDC.getCursor ⟨[⟨1, "Cliente", "INSERT"⟩, ⟨2, "Produto", "INSERT"⟩,
          ⟨3, "Pedido", "INSERT"⟩], []⟩ "Pedido" ∧
    ((CDC.checkForChanges (fun r => r.entityType != "Pedido")
      ⟨[⟨1, "Cliente", "INSERT"⟩, ⟨2, "Produto", "INSERT"⟩,
        ⟨3, "Pedido", "INSERT"⟩], []⟩).ok = false ∧
    (∃ n, (CDC.pedidoPass (fun r => r.entityType != "Pedido")
        ⟨[⟨1, "Cliente", "INSERT"⟩, ⟨2, "Produto", "INSERT"⟩,
          ⟨3, "Pedido", "INSERT"⟩], []⟩).trace.getLast? =
        some (CDC.Op.pub n false) ∧
      CDC.cursorLE
        (CDC.getCursor
          (CDC.tick (fun r => r.entityType != "Pedido")
            ⟨[⟨1, "Cliente", "INSERT"⟩, ⟨2, "Produto", "INSERT"⟩,
              ⟨3, "Pedido", "INSERT"⟩], []⟩)
          "Pedido") (some n))) :=
  ⟨⟨((claim_C5_amended_cycle_abort
      ⟨[⟨1, "Cliente", "INSERT"⟩, ⟨2, "Produto", "INSERT"⟩], []⟩
      (fun r => r.entityType != "Cliente")).1 (by decide)).2.1,
    ((claim_C5_amended_cycle_abort
      ⟨[⟨1, "Cliente", "INSERT"⟩, ⟨2, "Produto", "INSERT"⟩], []⟩
      (fun r => r.entityType != "Cliente")).1 (by decide)).2.2.1⟩,
   ((claim_C5_amended_cycle_abort
      ⟨[⟨1, "Cliente", "INSERT"⟩, ⟨2, "Produto", "INSERT"⟩,
        ⟨3, "Pedido", "INSERT"⟩], []⟩
      (fun r => r.entityType != "Produto")).2.1 (by decide)
      (by decide)).2.2.1,
   ⟨((claim_C5_amended_cycle_abort
      ⟨[⟨1, "Cliente", "INSERT"⟩, ⟨2, "Produto", "INSERT"⟩,
        ⟨3, "Pedido", "INSERT"⟩], []⟩
      (fun r => r.entityType != "Pedido")).2.2 (by decide) (by decide)
      (by decide)).2.1,
    ((claim_C5_amended_cycle_abort
      ⟨[⟨1, "Cliente", "INSERT"⟩, ⟨2, "Produto", "INSERT"⟩,
        ⟨3, "Pedido", "INSERT"⟩], []⟩
      (fun r => r.entityType != "Pedido")).2.2 (by decide) (by decide)
      (by decide)).2.2⟩⟩

/-- C6: across one poll tick no entity type's stored cursor moves
backwards, and in any entity-type pass every cursor write to a row's id
is immediately preceded by the successful publish of that row's event —
the cursor is advanced only after publish succeeds, and a failed
publish contributes no cursor write. -/
theorem claim_C6_publish_before_cursor (db : CDC.DB) (pub : CDC.Row → Bool)
    (et : String) :
    CDC.cursorLE (CDC.getCursor db et)
      (CDC.getCursor (CDC.tick pub db) et) ∧
    (∀ cur l1 n l2,
      (CDC.processEntity db et cur pub).trace = l1 ++ CDC.Op.setC n :: l2 →
      ∃ l0, l1 = l0 ++ [CDC.Op.pub n true]) := by
  refine ⟨CDC.tick_cursor_mono pub db et, ?_⟩
  intro cur l1 n l2 h
  exact CDC.processRows_setC_after_pub et pub
    (CDC.queryChanges db.eventLog et cur) db l1 n l2 h

/-- Witness for C6: one `Cliente` INSERT row, always-successful
publish; the pass trace is `[pub 5 true, setC 5]`, decomposed around
its cursor write. -/
theorem claim_C6_witness :
    CDC.cursorLE
      (CDC.getCursor ⟨[⟨5, "Cliente", "INSERT"⟩], []⟩ "Cliente")
      (CDC.getCursor
        (CDC.tick (fun _ => true) ⟨[⟨5, "Cliente", "INSERT"⟩], []⟩)
        "Cliente") ∧
    (∃ l0, [CDC.Op.pub 5 true] = l0 ++ [CDC.Op.pub 5 true]) :=
  ⟨(claim_C6_publish_before_cursor ⟨[⟨5, "Cliente", "INSERT"⟩], []⟩
      (fun _ => true) "Cliente").1,
   (claim_C6_publish_before_cursor ⟨[⟨5, "Cliente", "INSERT"⟩], []⟩
      (fun _ => true) "Cliente").2 none [CDC.Op.pub 5 true] 5 []
      (by decide)⟩

/-- Witness for the amended C1: a concrete `INSERT` row beyond the
(absent) cursor is published. -/
theorem claim_C1_witness :
    (⟨3, "Cliente", "INSERT"⟩ : CDC.Row) ∈
      (CDC.processEntity ⟨[⟨3, "Cliente", "INSERT"⟩], []⟩ "Cliente" none
        (fun _ => true)).published :=
  (claim_C1_amended_insert_filter ⟨[⟨3, "Cliente", "INSERT"⟩], []⟩ "Cliente"
    none ⟨3, "Cliente", "INSERT"⟩).1.mpr (by decide)

/-- Witness for the amended C7: a throwing send primitive is raised to
the caller of the event bus's `publish`. -/
theorem claim_C7_witness :
    Pub.eventBusPublish ⟨true, true, Pub.SendRes.thrown⟩ =
      Pub.PubResult.raised :=
  (claim_C7_amended ⟨true, true, Pub.SendRes.thrown⟩).1.mpr
    (Or.inr (Or.inr rfl))

/-- Witness for the amended C8 at a one-item batch. -/
theorem claim_C8_witness :
    (Pub.eventBusPublishBatch
      [⟨true, true, Pub.SendRes.retTrue⟩]).results[(0 : Nat)]? =
      some (Pub.eventBusPublish ⟨true, true, Pub.SendRes.retTrue⟩) :=
  (claim_C8_amended [] [] ⟨true, true, Pub.SendRes.retTrue⟩).1

/-- Witness for C10 at a concrete bus state: after subscribe then
unsubscribe, handler 7 is still a delivery target of its queue. -/
theorem claim_C10_witness :
    7 ∈ Sub.deliverTargets
      (Sub.unsubscribe
        (Sub.subscribe ⟨[], [], [], []⟩ ⟨7, "Cliente"⟩ "evt")
        ⟨7, "Cliente"⟩ "evt")
      ("agentic." ++ (⟨7, "Cliente"⟩ : Sub.Handler).entityType ++ "." ++ "evt") :=
  (claim_C10_unsubscribe_frame ⟨[], [], [], []⟩ ⟨7, "Cliente"⟩ "evt").2.2.2.2.2
